import Mathlib

/-!
Shallow embedding of the authentication core of the `zabbix-cli` repository:
`zabbix_cli/auth.py`, the exception-dispatch logic of `zabbix_cli/exceptions.py`
and the session-state logic of `zabbix_cli/state.py`.

Modelling conventions:
- the filesystem is a partial map from paths to (st_mode, text contents);
- Python `Optional[str]` becomes `Option String`; Python truthiness of an
  optional string (`None` and `""` are falsy) is the `truthy` predicate below;
- the remote Zabbix API client is the collaborator described by the spec:
  `login(user, password)` / `login(auth_token)` set the client's `auth`
  attribute; it is modelled by an oracle `Server` mapping credentials to the
  token the server grants;
- interactive prompting is an oracle `Prompter` mapping the default username
  offered by the prompt to the (username, password) pair the user enters;
- console output (`error`, `warning`) and remote calls are recorded as
  `Event`s so that theorems can speak about which credential sources and
  remote operations an execution attempted.
-/

/-- `splitOnFirstAux sep s` splits the character list `s` at the first
occurrence of the (non-empty in all uses) separator `sep`, returning the parts
before and after it, or `none` when `sep` does not occur.  This models the
search part of Python's `str.partition` and the `in` substring operator. -/
def splitOnFirstAux (sep : List Char) : List Char → Option (List Char × List Char)
  | [] => none
  | c :: rest =>
    if sep.isPrefixOf (c :: rest) then some ([], (c :: rest).drop sep.length)
    else
      match splitOnFirstAux sep rest with
      | some (pre, post) => some (c :: pre, post)
      | none => none

/-- Python `line.partition(sep)` restricted to the two components the source
uses (`username, _, secret = line.partition("::")`): the part before the first
occurrence of `sep` and the part after it; when `sep` is absent the result is
`(line, "")`, exactly as in Python. -/
def pyPartition (s sep : String) : String × String :=
  match splitOnFirstAux sep.toList s.toList with
  | some (pre, post) => (String.mk pre, String.mk post)
  | none => (s, "")

/-- Python `sub in s` for strings (used for the `"re-login" in e.args[0]`
check in `handle_zabbix_api_exception`). -/
def pyContains (s sub : String) : Bool :=
  (splitOnFirstAux sub.toList s.toList).isSome

/-- Python truthiness of an optional string: `None` and `""` are falsy. -/
def truthy : Option String → Bool
  | none => false
  | some s => s != ""

/-- Python `str.strip()` with no argument: drop whitespace from both ends.
Structurally recursive so that concrete executions reduce in the kernel. -/
def pyStrip (s : String) : String :=
  String.mk (((s.toList.dropWhile Char.isWhitespace).reverse.dropWhile
    Char.isWhitespace).reverse)

/-- The first line of a string: `s.splitlines()[0]` for non-empty `s` (the
source only splits newline-delimited text). -/
def firstLine (s : String) : String :=
  String.mk (s.toList.takeWhile fun c => c != '\n')

-- § Filesystem model

/-- A file on disk: its `st_mode` (permission bits included) and its text
contents. -/
structure FileInfo where
  mode : Nat
  contents : String
  deriving DecidableEq

/-- Filesystem paths; their internal structure is irrelevant to the claims,
only identity matters. -/
abbrev FPath := String

/-- The filesystem: a partial map from paths to files. -/
abbrev FS := FPath → Option FileInfo

-- § Configuration model
-- Modelled from the spec: the `Config` pydantic model lives in
-- `zabbix_cli/config/model.py`, which is not part of the provided sources.
-- Only the fields the authentication core reads are modelled, with Python
-- `Optional[SecretStr]` fields as `Option String` (a pydantic `SecretStr` is
-- falsy exactly when its secret value is empty).

structure ApiConfig where
  auth_token : Option String
  username : String
  password : Option String
  deriving DecidableEq

structure AppConfig where
  use_auth_token_file : Bool
  allow_insecure_authfile : Bool
  auth_file : FPath
  auth_token_file : FPath
  deriving DecidableEq

structure Config where
  api : ApiConfig
  app : AppConfig
  deriving DecidableEq

-- Modelled from the spec: the canonical and legacy credential-file path
-- constants live in `zabbix_cli/config/constants.py` and
-- `zabbix_cli/_v2_compat.py`, not part of the provided sources.  Only their
-- pairwise distinctness matters.

def AUTH_FILE : FPath := "data/.zabbix-cli_auth"

def AUTH_FILE_LEGACY : FPath := "home/.zabbix-cli_auth"

def AUTH_TOKEN_FILE : FPath := "data/.zabbix-cli_auth_token"

def AUTH_TOKEN_FILE_LEGACY : FPath := "home/.zabbix-cli_auth_token"

/-- Modelled from the spec: the two well-known environment variables named by
`ConfigEnvVars.USERNAME` / `ConfigEnvVars.PASSWORD` (constants module not in
the provided sources).  `none` models an unset variable, `some ""` a variable
set to the empty string. -/
structure Env where
  username : Option String
  password : Option String
  deriving DecidableEq

-- § The remote client collaborator and the oracles

/-- The Zabbix API client: only its `auth` attribute (the session token,
initially empty) is relevant to this core. -/
structure Client where
  auth : String
  deriving DecidableEq

/-- Oracle for the remote `login(user=..., password=...)` call: the token the
server grants for the given credentials. -/
abbrev Server := Option String → Option String → String

/-- Oracle for interactive prompting: maps the default username offered by the
username prompt to the (username, password) pair the user enters. -/
abbrev Prompter := String → String × String

/-- Observable steps of an authentication run. -/
inductive Event where
  | envRead
  | authFileRead
  | tokenFileRead
  | prompt
  | warningMismatch (fileUsername : Option String)
  | serverLoginToken (token : String)
  | serverLoginPassword (username password : Option String)
  deriving DecidableEq

-- § auth.py, module-level helpers

/-- `SECURE_PERMISSIONS` from `auth.py` (octal 600 = 384). -/
def SECURE_PERMISSIONS : Nat := 0o600

/-- `get_file_permissions`: `file.stat().st_mode & 0o777`. -/
def get_file_permissions (fi : FileInfo) : Nat := fi.mode &&& 0o777

/-- `file_has_secure_permissions`: permissions equal `SECURE_PERMISSIONS`. -/
def file_has_secure_permissions (fi : FileInfo) : Bool :=
  get_file_permissions fi == SECURE_PERMISSIONS

/-- `_parse_auth_file_contents`: take the first line of the contents, strip
it, and split it on the first `::`. -/
def _parse_auth_file_contents : Option String → Option String × Option String
  | none => (none, none)
  | some contents =>
    if contents == "" then (none, none)
    else
      let line := pyStrip (firstLine contents)
      let parts := pyPartition line "::"
      (some parts.1, some parts.2)

/-- `_do_load_auth_file`: `none` when the file does not exist, or when the
permissions are not exactly `SECURE_PERMISSIONS` and the insecure override is
off (the source prints an error in that case); otherwise the stripped
contents. -/
def _do_load_auth_file (fs : FS) (file : FPath) (allow_insecure : Bool) : Option String :=
  match fs file with
  | none => none
  | some fi =>
    if !allow_insecure && !file_has_secure_permissions fi then none
    else some (pyStrip fi.contents)

/-- `get_auth_file_paths`: canonical path, then legacy path, then the
configured path when it differs from both. -/
def get_auth_file_paths (config : Option Config) : List FPath :=
  let paths := [AUTH_FILE, AUTH_FILE_LEGACY]
  match config with
  | some cfg =>
    if cfg.app.auth_file ∈ paths then paths else paths ++ [cfg.app.auth_file]
  | none => paths

/-- `get_auth_token_file_paths`: canonical path, then legacy path, then the
configured path when it differs from both. -/
def get_auth_token_file_paths (config : Option Config) : List FPath :=
  let paths := [AUTH_TOKEN_FILE, AUTH_TOKEN_FILE_LEGACY]
  match config with
  | some cfg =>
    if cfg.app.auth_token_file ∈ paths then paths
    else paths ++ [cfg.app.auth_token_file]
  | none => paths

/-- `write_auth_token_file`: writes `username::auth_token` to `file`,
creating it with secure permissions when absent and tightening insecure
permissions to `SECURE_PERMISSIONS` first when present (the `OSError` failure
paths raise `AuthTokenFileError`; the model assumes a writable filesystem, as
no claim concerns those failures). -/
def write_auth_token_file (fs : FS) (username auth_token : String) (file : FPath) : FS :=
  let contents := username ++ "::" ++ auth_token
  let newMode : Nat :=
    match fs file with
    | none => SECURE_PERMISSIONS
    | some fi => if file_has_secure_permissions fi then fi.mode else SECURE_PERMISSIONS
  fun p => if p = file then some { mode := newMode, contents := contents } else fs p

/-- `_do_clear_auth_token_file`: overwrite the contents with the empty string
when the file exists, otherwise do nothing. -/
def _do_clear_auth_token_file (fs : FS) (file : FPath) : FS :=
  match fs file with
  | some fi => fun p => if p = file then some { fi with contents := "" } else fs p
  | none => fs

/-- `clear_auth_token_file`: clear every known auth token file location and
drop the token from the config object when one was given. -/
def clear_auth_token_file (fs : FS) (config : Option Config) : FS × Option Config :=
  let fs' := (get_auth_token_file_paths config).foldl _do_clear_auth_token_file fs
  (fs', config.map fun c => { c with api := { c.api with auth_token := none } })

/-- `prompt_username_password`: prompt for a username (with the configured
username as the default) and a password. -/
def prompt_username_password (prompter : Prompter) (username : String) : String × String :=
  prompter username

-- § auth.py, Authenticator methods

/-- `Authenticator._get_username_password_env`: read the two well-known
environment variables. -/
def Authenticator._get_username_password_env (env : Env) : Option String × Option String :=
  (env.username, env.password)

/-- `Authenticator._load_auth_file`: same logic as `_do_load_auth_file`,
using the config's insecure-override flag (the source duplicates the body as
a method). -/
def Authenticator._load_auth_file (cfg : Config) (fs : FS) (file : FPath) : Option String :=
  _do_load_auth_file fs file cfg.app.allow_insecure_authfile

/-- `Authenticator.load_auth_file`: first path (canonical, legacy, configured
order) whose load yields truthy contents. -/
def Authenticator.load_auth_file (cfg : Config) (fs : FS) : Option String :=
  (get_auth_file_paths (some cfg)).findSome? fun p =>
    match Authenticator._load_auth_file cfg fs p with
    | some c => if c != "" then some c else none
    | none => none

/-- `Authenticator._get_username_password_auth_file`: parse the first loadable
auth file. -/
def Authenticator._get_username_password_auth_file (cfg : Config) (fs : FS) :
    Option String × Option String :=
  _parse_auth_file_contents (Authenticator.load_auth_file cfg fs)

/-- `Authenticator._load_auth_token_file`: first token-file path whose load
yields truthy contents (the source prints an error when none does). -/
def Authenticator._load_auth_token_file (cfg : Config) (fs : FS) : Option String :=
  (get_auth_token_file_paths (some cfg)).findSome? fun p =>
    match _do_load_auth_file fs p cfg.app.allow_insecure_authfile with
    | some c => if c != "" then some c else none
    | none => none

/-- `Authenticator.login_with_auth_token_file`: parse the token file; bail out
silently when the parsed token is falsy; log in with the token when the parsed
username is truthy and equals the configured username; otherwise warn and
discard the token. -/
def Authenticator.login_with_auth_token_file (cfg : Config) (fs : FS) (client : Client) :
    Client × List Event :=
  let contents := Authenticator._load_auth_token_file cfg fs
  let parsed := _parse_auth_file_contents contents
  let username := parsed.1
  let auth_token := parsed.2
  if truthy auth_token = false then (client, [Event.tokenFileRead])
  else if truthy username && (username.getD "" == cfg.api.username) then
    let tok := auth_token.getD ""
    ({ auth := tok }, [Event.tokenFileRead, Event.serverLoginToken tok])
  else
    (client, [Event.tokenFileRead, Event.warningMismatch username])

/-- `Authenticator.get_username_password`: environment variables, then the
auth file; the first source yielding a truthy username AND a truthy password
wins; otherwise prompt interactively. -/
def Authenticator.get_username_password (cfg : Config) (env : Env) (fs : FS)
    (prompter : Prompter) : (String × String) × List Event :=
  let e := Authenticator._get_username_password_env env
  if truthy e.1 && truthy e.2 then ((e.1.getD "", e.2.getD ""), [Event.envRead])
  else
    let a := Authenticator._get_username_password_auth_file cfg fs
    if truthy a.1 && truthy a.2 then
      ((a.1.getD "", a.2.getD ""), [Event.envRead, Event.authFileRead])
    else
      (prompt_username_password prompter cfg.api.username,
        [Event.envRead, Event.authFileRead, Event.prompt])

/-- Result of `Authenticator.login`: final client, returned token, and the
trace of credential sources and remote calls attempted. -/
structure AuthLoginResult where
  client : Client
  token : String
  trace : List Event
  deriving DecidableEq

/-- `Authenticator.login`: config API token, else config username+password,
else the auth token file (when enabled); when the client still has no session
token, fall back to `get_username_password` and log in with its result.
Returns `self.client.auth`. -/
def Authenticator.login (cfg : Config) (env : Env) (fs : FS) (prompter : Prompter)
    (server : Server) : AuthLoginResult :=
  let client0 : Client := { auth := "" }
  let step1 : Client × List Event :=
    if truthy cfg.api.auth_token then
      let tok := cfg.api.auth_token.getD ""
      ({ auth := tok }, [Event.serverLoginToken tok])
    else if (cfg.api.username != "") && truthy cfg.api.password then
      let u := some cfg.api.username
      let p := some (cfg.api.password.getD "")
      let t := server u p
      ({ auth := t }, [Event.serverLoginPassword u p])
    else if cfg.app.use_auth_token_file then
      Authenticator.login_with_auth_token_file cfg fs client0
    else (client0, [])
  let c1 := step1.1
  if c1.auth != "" then { client := c1, token := c1.auth, trace := step1.2 }
  else
    let r := Authenticator.get_username_password cfg env fs prompter
    let u := some r.1.1
    let p := some r.1.2
    let t := server u p
    { client := { auth := t }, token := t,
      trace := step1.2 ++ r.2 ++ [Event.serverLoginPassword u p] }

/-- Result of the module-level `login`: resulting filesystem, token, trace. -/
structure LoginResult where
  fs : FS
  token : String
  trace : List Event

/-- Module-level `login(client, config)`: run the authenticator, then, when
the token-file feature is enabled, persist `config.api.username` and the token
to the configured auth token file. -/
def login (cfg : Config) (env : Env) (fs : FS) (prompter : Prompter)
    (server : Server) : LoginResult :=
  let r := Authenticator.login cfg env fs prompter server
  if cfg.app.use_auth_token_file then
    { fs := write_auth_token_file fs cfg.api.username r.token cfg.app.auth_token_file,
      token := r.token, trace := r.trace }
  else { fs := fs, token := r.token, trace := r.trace }

-- § exceptions.py: exception class hierarchy and handler dispatch

-- A Python exception class is its name plus its tuple of declared base
-- classes (`__bases__`), in declaration order.  `ExcType` is mutual with
-- `ExcList` so that all functions over the hierarchy are structurally
-- recursive.
mutual
inductive ExcType : Type where
  | mk (name : String) (bases : ExcList)
inductive ExcList : Type where
  | nil
  | cons (head : ExcType) (tail : ExcList)
end

mutual
def ExcType.beq : ExcType → ExcType → Bool
  | .mk n1 b1, .mk n2 b2 => n1 == n2 && ExcList.beq b1 b2
def ExcList.beq : ExcList → ExcList → Bool
  | .nil, .nil => true
  | .cons h1 t1, .cons h2 t2 => ExcType.beq h1 h2 && ExcList.beq t1 t2
  | _, _ => false
end

instance : BEq ExcType := ⟨ExcType.beq⟩

/-- `__bases__` accessor. -/
def ExcType.bases : ExcType → ExcList
  | .mk _ b => b

/-- View an `ExcList` as an ordinary list. -/
def ExcList.toListE : ExcList → List ExcType
  | .nil => []
  | .cons h t => h :: t.toListE

-- Python's built-in exception root classes.

def PyObject : ExcType := .mk "object" .nil

def PyBaseException : ExcType := .mk "BaseException" (.cons PyObject .nil)

def PyException : ExcType := .mk "Exception" (.cons PyBaseException .nil)

-- The exception classes declared in `zabbix_cli/exceptions.py`.

def ZabbixCLIError : ExcType := .mk "ZabbixCLIError" (.cons PyException .nil)

def ConfigError : ExcType := .mk "ConfigError" (.cons ZabbixCLIError .nil)

def CommandFileError : ExcType := .mk "CommandFileError" (.cons ZabbixCLIError .nil)

def AuthTokenFileError : ExcType := .mk "AuthTokenFileError" (.cons ZabbixCLIError .nil)

def AuthTokenError : ExcType := .mk "AuthTokenError" (.cons ZabbixCLIError .nil)

def ZabbixAPIException : ExcType := .mk "ZabbixAPIException" (.cons ZabbixCLIError .nil)

def ZabbixNotFoundError : ExcType := .mk "ZabbixNotFoundError" (.cons ZabbixAPIException .nil)

-- Modelled from the spec: `pydantic.ValidationError` and `httpx.ConnectError`
-- are external collaborator types; only their identity as handler-table keys
-- matters to the dispatch logic, so their ancestry is abbreviated.

def ValidationError : ExcType := .mk "ValidationError" (.cons PyException .nil)

def ConnectError : ExcType := .mk "ConnectError" (.cons PyException .nil)

/-- The handler functions appearing as values of `EXC_HANDLERS`. -/
inductive Handler where
  | handle_zabbix_api_exception
  | handle_notraceback
  | handle_validation_error
  | handle_connect_error
  deriving DecidableEq

/-- The fixed `EXC_HANDLERS` table from `get_exception_handler`. -/
def EXC_HANDLERS : List (ExcType × Handler) :=
  [(ZabbixAPIException, Handler.handle_zabbix_api_exception),
   (ZabbixCLIError, Handler.handle_notraceback),
   (ValidationError, Handler.handle_validation_error),
   (ConnectError, Handler.handle_connect_error),
   (ConfigError, Handler.handle_notraceback)]

/-- `EXC_HANDLERS.get(type_, None)`: exact-type lookup. -/
def lookupHandler (t : ExcType) : Option Handler :=
  (EXC_HANDLERS.find? fun kv => kv.1 == t).map fun kv => kv.2

-- `get_exception_handler`: exact lookup first; otherwise recurse into each
-- declared base class in order, fully exploring one base's ancestry before
-- moving to the next (the source's `for base in type_.__bases__` loop around
-- a recursive call, with `handlerFromBases` as that loop).
mutual
def get_exception_handler : ExcType → Option Handler
  | .mk n bases =>
    match lookupHandler (.mk n bases) with
    | some h => some h
    | none => handlerFromBases bases
def handlerFromBases : ExcList → Option Handler
  | .nil => none
  | .cons b rest =>
    match get_exception_handler b with
    | some h => some h
    | none => handlerFromBases rest
end

/-- Outcome of `handle_exception`: either a handler runs, or the exception is
re-raised unhandled. -/
inductive HandleExceptionOutcome where
  | handled (h : Handler)
  | reraised
  deriving DecidableEq

/-- `handle_exception`: dispatch on the exception's type; re-raise when no
handler is found. -/
def handle_exception (t : ExcType) : HandleExceptionOutcome :=
  match get_exception_handler t with
  | some h => HandleExceptionOutcome.handled h
  | none => HandleExceptionOutcome.reraised

/-- Modelled from the spec: the claimed resolution order — "walk the type's
declared parent types breadth-first (first match wins)" — as a fuel-bounded
breadth-first search seeded with the exception's own type (exact lookup
first). -/
def get_exception_handler_bfs : Nat → List ExcType → Option Handler
  | 0, _ => none
  | _ + 1, [] => none
  | fuel + 1, t :: queue =>
    match lookupHandler t with
    | some h => some h
    | none => get_exception_handler_bfs fuel (queue ++ t.bases.toListE)

-- `dfsPreorder` is the depth-first preorder linearization of an exception
-- type's ancestry: the type itself, then each base's full preorder in
-- declaration order.  It is the order in which `get_exception_handler`
-- visits types.
mutual
def dfsPreorder : ExcType → List ExcType
  | .mk n bases => .mk n bases :: dfsPreorderList bases
def dfsPreorderList : ExcList → List ExcType
  | .nil => []
  | .cons b rest => dfsPreorder b ++ dfsPreorderList rest
end

-- § exceptions.py: handle_zabbix_api_exception

/-- The slice of the global `State` that `handle_zabbix_api_exception`
reads. -/
structure ExcState where
  repl : Bool
  _config : Option Config

/-- Outcome of `handle_zabbix_api_exception`: either the stale-token path
(clear the token files, re-apply configuration when in REPL mode, exit with a
fixed instruction) or the generic no-traceback exit.  Both constructors are
terminating exits: the failed command is not re-run in either. -/
inductive ZApiHandleOutcome where
  | staleTokenExit (fs : FS) (config : Config) (reconfigured : Bool) (message : String)
  | plainExit (message : String)

/-- `handle_zabbix_api_exception e`: when a config is loaded, the token-file
feature is on and the message contains `"re-login"`, clear the auth token
files (and the config's token), re-apply configuration when in REPL mode, and
exit with the fixed re-run instruction; otherwise fall back to
`handle_notraceback`. -/
def handle_zabbix_api_exception (fs : FS) (st : ExcState) (msg : String) :
    ZApiHandleOutcome :=
  match st._config with
  | some cfg =>
    if cfg.app.use_auth_token_file && pyContains msg "re-login" then
      let cleared := clear_auth_token_file fs (some cfg)
      ZApiHandleOutcome.staleTokenExit cleared.1 (cleared.2.getD cfg) st.repl
        "Auth token expired. Re-run the command to re-authenticate."
    else ZApiHandleOutcome.plainExit msg
  | none => ZApiHandleOutcome.plainExit msg

-- § state.py: State.revert_config_overrides and State.logout

/-- The slice of the global `State` that `revert_config_overrides` touches. -/
structure ReplState where
  repl : Bool
  _config : Option Config
  _config_repl_original : Option Config
  deriving DecidableEq

/-- `State.revert_config_overrides`: no-op outside REPL mode or with no config
loaded; on the first call (no baseline yet) snapshot a deep copy of the
current config as the baseline; on every later call restore the config to a
deep copy of the baseline.  Deep copies of immutable model values are the
values themselves. -/
def State.revert_config_overrides (s : ReplState) : ReplState :=
  if !s.repl || !s._config.isSome then s
  else
    match s._config_repl_original with
    | none => { s with _config_repl_original := s._config }
    | some orig => { s with _config := some orig }

/-- The slice of the global `State` that `logout` reads. -/
structure LogoutState where
  _config : Option Config
  _client : Option Client

/-- Remote and filesystem actions `State.logout` can take. -/
inductive LogoutEffect where
  | remoteLogout
  | clearedTokenFiles
  deriving DecidableEq

/-- `State.logout`: no-op when the config or the client was never set, or when
the token-file feature keeps the session alive; otherwise call the remote
logout endpoint and clear the known auth token file locations
(`clear_auth_token_file()` is called without a config argument, so only the
canonical and legacy paths are cleared). -/
def State.logout (fs : FS) (s : LogoutState) : FS × List LogoutEffect :=
  match s._config, s._client with
  | some cfg, some _ =>
    if cfg.app.use_auth_token_file then (fs, [])
    else
      ((get_auth_token_file_paths none).foldl _do_clear_auth_token_file fs,
        [LogoutEffect.remoteLogout, LogoutEffect.clearedTokenFiles])
  | _, _ => (fs, [])

-- § Helper lemmas

/-- Pointwise effect of clearing a single auth token file. -/
theorem do_clear_point (fs : FS) (a p : FPath) :
    _do_clear_auth_token_file fs a p =
      if p = a then (fs a).map (fun fi => { fi with contents := "" }) else fs p := by
  unfold _do_clear_auth_token_file
  cases h : fs a with
  | none =>
    by_cases hp : p = a
    · subst hp; simp [h]
    · simp [hp]
  | some fi =>
    by_cases hp : p = a
    · subst hp; simp [h]
    · simp [hp]

/-- Pointwise effect of clearing a list of auth token files: every listed path
keeps its mode and loses its contents, every other path is untouched. -/
theorem foldl_clear_spec (paths : List FPath) (fs : FS) (p : FPath) :
    (paths.foldl _do_clear_auth_token_file fs) p =
      if p ∈ paths then (fs p).map (fun fi => { fi with contents := "" }) else fs p := by
  induction paths generalizing fs with
  | nil => simp
  | cons a as ih =>
    simp only [List.foldl_cons, ih, do_clear_point, List.mem_cons]
    by_cases hpa : p = a
    · subst hpa
      by_cases hmem : p ∈ as
      · simp only [hmem, if_true, if_pos rfl, true_or]
        cases fs p <;> simp
      · simp [hmem]
    · by_cases hmem : p ∈ as
      · simp [hpa, hmem]
      · simp [hpa, hmem]

-- § C3

/-- C3 (confirmed): for every existing credential file whose permission mode
is broader than owner read/write (it includes the 0600 bits and has more),
`_do_load_auth_file` returns nothing when the insecure-override flag is false,
and returns the file's trimmed contents regardless of mode when the flag is
true. -/
theorem c3_broad_mode_read (fs : FS) (p : FPath) (fi : FileInfo)
    (hex : fs p = some fi)
    (_hsup : get_file_permissions fi &&& SECURE_PERMISSIONS = SECURE_PERMISSIONS)
    (hne : get_file_permissions fi ≠ SECURE_PERMISSIONS) :
    _do_load_auth_file fs p false = none ∧
    _do_load_auth_file fs p true = some (pyStrip fi.contents) := by
  have hf : file_has_secure_permissions fi = false := by
    unfold file_has_secure_permissions
    simp [hne]
  unfold _do_load_auth_file
  rw [hex]
  simp [hf]

def fiC3 : FileInfo := { mode := 0o644, contents := "  user::pass  " }

def fsC3 : FS := fun p => if p = AUTH_FILE then some fiC3 else none

theorem c3_witness :
    (fsC3 AUTH_FILE = some fiC3 ∧
      get_file_permissions fiC3 &&& SECURE_PERMISSIONS = SECURE_PERMISSIONS ∧
      get_file_permissions fiC3 ≠ SECURE_PERMISSIONS) ∧
    (_do_load_auth_file fsC3 AUTH_FILE false = none ∧
      _do_load_auth_file fsC3 AUTH_FILE true = some (pyStrip fiC3.contents)) :=
  ⟨⟨by decide, by decide, by decide⟩,
    c3_broad_mode_read fsC3 AUTH_FILE fiC3 (by decide) (by decide) (by decide)⟩

-- § C10

/-- C10 (confirmed): with the insecure-override flag false, an existing
credential file is readable exactly when its permission mode is exactly 0600;
every other mode — broader ones like 0644 but also strictly narrower ones like
0400 — makes the read return nothing. -/
theorem c10_exact_mode_required (fs : FS) (p : FPath) (fi : FileInfo)
    (hex : fs p = some fi) :
    (get_file_permissions fi ≠ SECURE_PERMISSIONS →
      _do_load_auth_file fs p false = none) ∧
    (get_file_permissions fi = SECURE_PERMISSIONS →
      _do_load_auth_file fs p false = some (pyStrip fi.contents)) := by
  unfold _do_load_auth_file
  rw [hex]
  constructor
  · intro hne
    have hf : file_has_secure_permissions fi = false := by
      unfold file_has_secure_permissions
      simp [hne]
    simp [hf]
  · intro heq
    have hf : file_has_secure_permissions fi = true := by
      unfold file_has_secure_permissions
      simp [heq]
    simp [hf]

def fiC10 : FileInfo := { mode := 0o400, contents := "user::pass" }

def fsC10 : FS := fun p => if p = AUTH_FILE then some fiC10 else none

theorem c10_witness :
    (fsC10 AUTH_FILE = some fiC10 ∧ get_file_permissions fiC10 ≠ SECURE_PERMISSIONS) ∧
    _do_load_auth_file fsC10 AUTH_FILE false = none :=
  ⟨⟨by decide, by decide⟩,
    (c10_exact_mode_required fsC10 AUTH_FILE fiC10 (by decide)).1 (by decide)⟩

-- § C9

/-- C9 (confirmed): whenever the token-file feature is enabled, or the config
or client was never set, `State.logout` performs no remote logout call and
leaves the filesystem — in particular every auth token file — unchanged. -/
theorem c9_logout_noop (fs : FS) (s : LogoutState)
    (h : s._config = none ∨ s._client = none ∨
      ∃ cfg, s._config = some cfg ∧ cfg.app.use_auth_token_file = true) :
    State.logout fs s = (fs, []) := by
  obtain ⟨oc, ocl⟩ := s
  rcases h with h | h | ⟨cfg, hc, hu⟩
  · simp only at h
    subst h
    cases ocl <;> rfl
  · simp only at h
    subst h
    cases oc <;> rfl
  · simp only at hc
    subst hc
    cases ocl with
    | none => rfl
    | some cl => simp [State.logout, hu]

def cfgC9 : Config :=
  { api := { auth_token := none, username := "alice", password := none },
    app := { use_auth_token_file := true, allow_insecure_authfile := false,
             auth_file := AUTH_FILE, auth_token_file := AUTH_TOKEN_FILE } }

def fsC9 : FS := fun p =>
  if p = AUTH_TOKEN_FILE then some { mode := 0o600, contents := "alice::tok" } else none

def sC9 : LogoutState := { _config := some cfgC9, _client := some { auth := "tok" } }

theorem c9_witness :
    (sC9._config = none ∨ sC9._client = none ∨
      ∃ cfg, sC9._config = some cfg ∧ cfg.app.use_auth_token_file = true) ∧
    State.logout fsC9 sC9 = (fsC9, []) :=
  ⟨Or.inr (Or.inr ⟨cfgC9, rfl, rfl⟩),
    c9_logout_noop fsC9 sC9 (Or.inr (Or.inr ⟨cfgC9, rfl, rfl⟩))⟩

-- § C8

/-- C8 (confirmed): `revert_config_overrides` is a no-op outside REPL mode or
with no config loaded; in REPL mode with a config loaded, the first call (no
baseline yet) snapshots the current config as the baseline and changes nothing
else, and every call made while a baseline `b` exists restores the config to
`b` — deep-equal to the snapshot — regardless of the (possibly mutated)
current config. -/
theorem c8_revert_config_overrides (s : ReplState) (c : Config) :
    ((s.repl = false ∨ s._config = none) → State.revert_config_overrides s = s) ∧
    (s.repl = true → s._config = some c → s._config_repl_original = none →
      State.revert_config_overrides s = { s with _config_repl_original := some c }) ∧
    (∀ b : Config, s.repl = true → s._config.isSome = true →
      s._config_repl_original = some b →
      State.revert_config_overrides s = { s with _config := some b }) := by
  obtain ⟨r, oc, ob⟩ := s
  refine ⟨?_, ?_, ?_⟩
  · rintro (h | h) <;> simp only at h <;> subst h
    · simp [State.revert_config_overrides]
    · simp [State.revert_config_overrides]
  · intro hr hc hb
    simp only at hr hc hb
    subst hr; subst hc; subst hb
    simp [State.revert_config_overrides]
  · intro b hr hc hb
    simp only at hr hc hb
    subst hr; subst hb
    cases oc with
    | none => simp at hc
    | some c0 => simp [State.revert_config_overrides]

def cfgC8 : Config :=
  { api := { auth_token := none, username := "alice", password := none },
    app := { use_auth_token_file := false, allow_insecure_authfile := false,
             auth_file := AUTH_FILE, auth_token_file := AUTH_TOKEN_FILE } }

/-- `cfgC8` after a per-command override mutated the configured username. -/
def cfgC8m : Config := { cfgC8 with api := { cfgC8.api with username := "mutated" } }

def sC8 : ReplState := { repl := true, _config := some cfgC8, _config_repl_original := none }

/-- `sC8` after the first revert call and a subsequent config mutation. -/
def sC8m : ReplState :=
  { State.revert_config_overrides sC8 with _config := some cfgC8m }

theorem c8_witness :
    (sC8.repl = true ∧ sC8._config = some cfgC8 ∧ sC8._config_repl_original = none ∧
      sC8m.repl = true ∧ sC8m._config.isSome = true ∧
      sC8m._config_repl_original = some cfgC8 ∧ cfgC8m ≠ cfgC8) ∧
    (State.revert_config_overrides sC8 = { sC8 with _config_repl_original := some cfgC8 } ∧
      State.revert_config_overrides sC8m = { sC8m with _config := some cfgC8 }) :=
  ⟨⟨rfl, rfl, rfl, by decide, by decide, by decide, by decide⟩,
    ⟨(c8_revert_config_overrides sC8 cfgC8).2.1 rfl rfl rfl,
      (c8_revert_config_overrides sC8m cfgC8).2.2 cfgC8 (by decide) (by decide) (by decide)⟩⟩

-- § C4

/-- C4 (confirmed): with an explicit (non-empty) API token in the
configuration, `Authenticator.login` performs exactly one remote call — the
token login — and never reads the environment, the auth file, the auth token
file, or the prompt, and never performs a username/password login; its
outcome is therefore identical for any two assignments of environment
variables, filesystem contents and prompt behaviour (and even of the
username/password server oracle). -/
theorem c4_config_token_short_circuit (cfg : Config) (env1 env2 : Env)
    (fs1 fs2 : FS) (pr1 pr2 : Prompter) (server1 server2 : Server)
    (h : truthy cfg.api.auth_token = true) :
    Authenticator.login cfg env1 fs1 pr1 server1 =
      Authenticator.login cfg env2 fs2 pr2 server2 ∧
    (Authenticator.login cfg env1 fs1 pr1 server1).trace =
      [Event.serverLoginToken (cfg.api.auth_token.getD "")] ∧
    (Authenticator.login cfg env1 fs1 pr1 server1).token =
      cfg.api.auth_token.getD "" := by
  obtain ⟨tok, htok, hne⟩ : ∃ t, cfg.api.auth_token = some t ∧ (t != "") = true := by
    cases ht : cfg.api.auth_token with
    | none => rw [ht] at h; simp [truthy] at h
    | some t =>
      refine ⟨t, rfl, ?_⟩
      rw [ht] at h
      simpa [truthy] using h
  have key : ∀ (env : Env) (fs : FS) (pr : Prompter) (server : Server),
      Authenticator.login cfg env fs pr server =
        { client := { auth := tok }, token := tok,
          trace := [Event.serverLoginToken tok] } := by
    intro env fs pr server
    have hne' : ¬tok = "" := by simpa using hne
    unfold Authenticator.login
    simp [htok, truthy, hne']
  rw [key env1 fs1 pr1 server1, key env2 fs2 pr2 server2]
  simp [htok]

def cfgC4 : Config :=
  { api := { auth_token := some "configured-token", username := "alice", password := none },
    app := { use_auth_token_file := false, allow_insecure_authfile := false,
             auth_file := AUTH_FILE, auth_token_file := AUTH_TOKEN_FILE } }

def envC4 : Env := { username := some "eve", password := some "pw" }

def fsC4 : FS := fun p =>
  if p = AUTH_TOKEN_FILE then some { mode := 0o600, contents := "bob::other-token" } else none

def fsEmpty : FS := fun _ => none

def prompterC4 : Prompter := fun d => (d, "prompted-password")

def serverC4a : Server := fun _ _ => "server-token-a"

def serverC4b : Server := fun _ _ => "server-token-b"

theorem c4_witness :
    truthy cfgC4.api.auth_token = true ∧
    (Authenticator.login cfgC4 envC4 fsC4 prompterC4 serverC4a =
        Authenticator.login cfgC4 { username := none, password := none } fsEmpty
          prompterC4 serverC4b ∧
      (Authenticator.login cfgC4 envC4 fsC4 prompterC4 serverC4a).trace =
        [Event.serverLoginToken (cfgC4.api.auth_token.getD "")] ∧
      (Authenticator.login cfgC4 envC4 fsC4 prompterC4 serverC4a).token =
        cfgC4.api.auth_token.getD "") :=
  ⟨by decide,
    c4_config_token_short_circuit cfgC4 envC4 { username := none, password := none }
      fsC4 fsEmpty prompterC4 prompterC4 serverC4a serverC4b (by decide)⟩

-- § C7

/-- C7 (confirmed): whenever neither the environment variables nor the auth
file yields both a truthy username and a truthy password,
`get_username_password` prompts exactly once and returns exactly the pair the
prompt produced. -/
theorem c7_prompt_fallback (cfg : Config) (env : Env) (fs : FS) (prompter : Prompter)
    (henv : (truthy env.username && truthy env.password) = false)
    (hfile : (truthy (Authenticator._get_username_password_auth_file cfg fs).1 &&
        truthy (Authenticator._get_username_password_auth_file cfg fs).2) = false) :
    Authenticator.get_username_password cfg env fs prompter =
      (prompt_username_password prompter cfg.api.username,
        [Event.envRead, Event.authFileRead, Event.prompt]) ∧
    (Authenticator.get_username_password cfg env fs prompter).2.count Event.prompt = 1 := by
  have main : Authenticator.get_username_password cfg env fs prompter =
      (prompt_username_password prompter cfg.api.username,
        [Event.envRead, Event.authFileRead, Event.prompt]) := by
    unfold Authenticator.get_username_password Authenticator._get_username_password_env
    simp only [henv, hfile, Bool.false_eq_true, if_false]
  refine ⟨main, ?_⟩
  rw [main]
  rfl

def cfgC7 : Config :=
  { api := { auth_token := none, username := "alice", password := none },
    app := { use_auth_token_file := false, allow_insecure_authfile := false,
             auth_file := AUTH_FILE, auth_token_file := AUTH_TOKEN_FILE } }

def envC7 : Env := { username := some "eve", password := none }

def prompterC7 : Prompter := fun _ => ("bob", "hunter2")

theorem c7_witness :
    ((truthy envC7.username && truthy envC7.password) = false ∧
      (truthy (Authenticator._get_username_password_auth_file cfgC7 fsEmpty).1 &&
        truthy (Authenticator._get_username_password_auth_file cfgC7 fsEmpty).2) = false) ∧
    (Authenticator.get_username_password cfgC7 envC7 fsEmpty prompterC7 =
        (prompt_username_password prompterC7 cfgC7.api.username,
          [Event.envRead, Event.authFileRead, Event.prompt]) ∧
      (Authenticator.get_username_password cfgC7 envC7 fsEmpty prompterC7).2.count
          Event.prompt = 1) :=
  ⟨⟨by decide, by decide⟩,
    c7_prompt_fallback cfgC7 envC7 fsEmpty prompterC7 (by decide) (by decide)⟩

-- § C6

/-- C6 (confirmed): a `ZabbixAPIException` whose message contains the
`"re-login"` substring, handled while a config with the token-file feature is
loaded, makes `handle_zabbix_api_exception` clear every known auth token file
(contents emptied, other paths untouched), drop the config's token, re-apply
configuration exactly when running in REPL mode, and terminate with the fixed
instruction to re-run the command; the outcome is an exit, never an automatic
retry of the failed command. -/
theorem c6_stale_token_recovery (fs : FS) (st : ExcState) (cfg : Config) (msg : String)
    (hc : st._config = some cfg)
    (huse : cfg.app.use_auth_token_file = true)
    (hmsg : pyContains msg "re-login" = true) :
    handle_zabbix_api_exception fs st msg =
      ZApiHandleOutcome.staleTokenExit
        ((get_auth_token_file_paths (some cfg)).foldl _do_clear_auth_token_file fs)
        { cfg with api := { cfg.api with auth_token := none } }
        st.repl
        "Auth token expired. Re-run the command to re-authenticate." ∧
    (∀ p, p ∈ get_auth_token_file_paths (some cfg) →
      ((get_auth_token_file_paths (some cfg)).foldl _do_clear_auth_token_file fs) p =
        (fs p).map fun fi => { fi with contents := "" }) ∧
    (∀ p, p ∉ get_auth_token_file_paths (some cfg) →
      ((get_auth_token_file_paths (some cfg)).foldl _do_clear_auth_token_file fs) p =
        fs p) := by
  refine ⟨?_, ?_, ?_⟩
  · unfold handle_zabbix_api_exception clear_auth_token_file
    rw [hc]
    simp [huse, hmsg]
  · intro p hp
    rw [foldl_clear_spec]
    simp [hp]
  · intro p hp
    rw [foldl_clear_spec]
    simp [hp]

def cfgC6 : Config :=
  { api := { auth_token := some "stale", username := "alice", password := none },
    app := { use_auth_token_file := true, allow_insecure_authfile := false,
             auth_file := AUTH_FILE, auth_token_file := AUTH_TOKEN_FILE } }

def stC6 : ExcState := { repl := true, _config := some cfgC6 }

def fsC6 : FS := fun p =>
  if p = AUTH_TOKEN_FILE then some { mode := 0o600, contents := "alice::stale" } else none

def msgC6 : String := "Not authorised: please re-login"

theorem c6_witness :
    (stC6._config = some cfgC6 ∧ cfgC6.app.use_auth_token_file = true ∧
      pyContains msgC6 "re-login" = true) ∧
    handle_zabbix_api_exception fsC6 stC6 msgC6 =
      ZApiHandleOutcome.staleTokenExit
        ((get_auth_token_file_paths (some cfgC6)).foldl _do_clear_auth_token_file fsC6)
        { cfgC6 with api := { cfgC6.api with auth_token := none } }
        stC6.repl
        "Auth token expired. Re-run the command to re-authenticate." :=
  ⟨⟨rfl, rfl, by decide⟩,
    (c6_stale_token_recovery fsC6 stC6 cfgC6 msgC6 rfl rfl (by decide)).1⟩

-- § C2

/-- `List.findSome?` distributes over append: search the left list first. -/
theorem findSome?_append_eq {α β : Type} (l1 l2 : List α) (f : α → Option β) :
    (l1 ++ l2).findSome? f =
      match l1.findSome? f with
      | some b => some b
      | none => l2.findSome? f := by
  induction l1 with
  | nil => simp [List.findSome?]
  | cons a as ih =>
    simp only [List.cons_append, List.findSome?]
    cases f a <;> simp [ih]

-- The two mutual lemmas below show that the recursive resolution in
-- `get_exception_handler` explores the ancestry in depth-first preorder.
mutual
theorem get_exception_handler_eq_dfs (t : ExcType) :
    get_exception_handler t = (dfsPreorder t).findSome? lookupHandler := by
  match t with
  | .mk n bases =>
    rw [get_exception_handler, dfsPreorder]
    simp only [List.findSome?]
    cases h : lookupHandler (.mk n bases) with
    | some hh => rfl
    | none => simpa using handlerFromBases_eq_dfs bases
theorem handlerFromBases_eq_dfs (l : ExcList) :
    handlerFromBases l = (dfsPreorderList l).findSome? lookupHandler := by
  match l with
  | .nil => rfl
  | .cons b rest =>
    rw [handlerFromBases, dfsPreorderList, findSome?_append_eq]
    rw [get_exception_handler_eq_dfs b, handlerFromBases_eq_dfs rest]
    cases (dfsPreorder b).findSome? lookupHandler <;> rfl
end

/-- C2 (corrected, amended): `handle_exception` selects the handler by exact
lookup of the exception's type in the fixed table and otherwise searches the
declared parent types depth-first in declaration order — each parent's entire
ancestry is explored before the next parent — taking the first type with a
handler; when no type in the ancestry has a handler the exception is
re-raised unhandled.  (For single-inheritance chains, such as every exception
type declared in this repository, this coincides with the claimed
breadth-first walk; the counterexample shows they differ on a
multiple-inheritance exception type.) -/
theorem c2_handler_dispatch_dfs (t : ExcType) :
    get_exception_handler t = (dfsPreorder t).findSome? lookupHandler ∧
    handle_exception t =
      (match (dfsPreorder t).findSome? lookupHandler with
       | some h => HandleExceptionOutcome.handled h
       | none => HandleExceptionOutcome.reraised) := by
  have h := get_exception_handler_eq_dfs t
  refine ⟨h, ?_⟩
  unfold handle_exception
  rw [h]

/-- A multiple-inheritance exception type a caller of `handle_exception`
could define: `class WeirdError(AuthTokenFileError, ZabbixAPIException)`. -/
def WeirdError : ExcType :=
  .mk "WeirdError" (.cons AuthTokenFileError (.cons ZabbixAPIException .nil))

/-- C2 counterexample: on `WeirdError` the fixed table has no exact entry,
and the first *breadth-first* ancestor with a handler is its direct parent
`ZabbixAPIException` (handler `handle_zabbix_api_exception`), but the code
resolves depth-first through `AuthTokenFileError`'s ancestry first and picks
`ZabbixCLIError`'s `handle_notraceback` — so the claimed breadth-first
resolution does not describe `handle_exception`. -/
theorem c2_bfs_counterexample :
    lookupHandler WeirdError = none ∧
    lookupHandler AuthTokenFileError = none ∧
    lookupHandler ZabbixAPIException = some Handler.handle_zabbix_api_exception ∧
    get_exception_handler_bfs 10 [WeirdError] =
      some Handler.handle_zabbix_api_exception ∧
    handle_exception WeirdError =
      HandleExceptionOutcome.handled Handler.handle_notraceback ∧
    Handler.handle_notraceback ≠ Handler.handle_zabbix_api_exception := by
  decide

-- § C5

/-- The trace of `get_username_password` is one of three fixed shapes, each
starting with the environment read and never containing a token login. -/
theorem gup_trace_cases (cfg : Config) (env : Env) (fs : FS) (pr : Prompter) :
    (Authenticator.get_username_password cfg env fs pr).2 = [Event.envRead] ∨
    (Authenticator.get_username_password cfg env fs pr).2 =
      [Event.envRead, Event.authFileRead] ∨
    (Authenticator.get_username_password cfg env fs pr).2 =
      [Event.envRead, Event.authFileRead, Event.prompt] := by
  by_cases h1 : (truthy env.username && truthy env.password) = true
  · left
    unfold Authenticator.get_username_password Authenticator._get_username_password_env
    simp [h1]
  · have h1' : (truthy env.username && truthy env.password) = false := by
      simpa using h1
    by_cases h2 : (truthy (Authenticator._get_username_password_auth_file cfg fs).1 &&
        truthy (Authenticator._get_username_password_auth_file cfg fs).2) = true
    · right; left
      unfold Authenticator.get_username_password Authenticator._get_username_password_env
      simp [h1', h2]
    · have h2' : (truthy (Authenticator._get_username_password_auth_file cfg fs).1 &&
          truthy (Authenticator._get_username_password_auth_file cfg fs).2) = false := by
        simpa using h2
      right; right
      unfold Authenticator.get_username_password Authenticator._get_username_password_env
      simp [h1', h2']

/-- C5 (corrected, amended): for an auth token file whose first line parses as
username `U` and *non-empty* token `T`, the token is used to log in exactly
when `U` is non-empty and equals the configured username; otherwise it is
discarded with a warning, never used, and authentication continues with the
next credential sources (the environment read happens and no token login ever
does).  (The counterexample shows the original claim fails when the parsed
token is empty: the file is then ignored even though its username equals the
configured one.) -/
theorem c5_token_username_binding (cfg : Config) (fs : FS) (client : Client)
    (U T : String)
    (hparse : _parse_auth_file_contents (Authenticator._load_auth_token_file cfg fs) =
      (some U, some T))
    (hT : T ≠ "") :
    (U ≠ "" ∧ U = cfg.api.username →
      Authenticator.login_with_auth_token_file cfg fs client =
        ({ auth := T }, [Event.tokenFileRead, Event.serverLoginToken T])) ∧
    (¬(U ≠ "" ∧ U = cfg.api.username) →
      Authenticator.login_with_auth_token_file cfg fs client =
        (client, [Event.tokenFileRead, Event.warningMismatch (some U)])) ∧
    (¬(U ≠ "" ∧ U = cfg.api.username) →
      truthy cfg.api.auth_token = false →
      ((cfg.api.username != "") && truthy cfg.api.password) = false →
      cfg.app.use_auth_token_file = true →
      ∀ (env : Env) (pr : Prompter) (server : Server),
        Event.envRead ∈ (Authenticator.login cfg env fs pr server).trace ∧
        ∀ tk, Event.serverLoginToken tk ∉
          (Authenticator.login cfg env fs pr server).trace) := by
  by_cases hU : U ≠ "" ∧ U = cfg.api.username
  · obtain ⟨hU1, hU2⟩ := hU
    subst hU2
    have main : Authenticator.login_with_auth_token_file cfg fs client =
        ({ auth := T }, [Event.tokenFileRead, Event.serverLoginToken T]) := by
      unfold Authenticator.login_with_auth_token_file
      simp [hparse, truthy, hT, hU1]
    exact ⟨fun _ => main, fun hcontra => (hcontra ⟨hU1, rfl⟩).elim,
      fun hcontra => (hcontra ⟨hU1, rfl⟩).elim⟩
  · have mismatch : ∀ cl : Client,
        Authenticator.login_with_auth_token_file cfg fs cl =
          (cl, [Event.tokenFileRead, Event.warningMismatch (some U)]) := by
      intro cl
      unfold Authenticator.login_with_auth_token_file
      simp [hparse, truthy, hT, hU]
    refine ⟨fun h => (hU h).elim, fun _ => mismatch client, ?_⟩
    intro _ htok hcred huse env pr server
    set r := Authenticator.get_username_password cfg env fs pr with hr
    have loginEq : Authenticator.login cfg env fs pr server =
        { client := { auth := server (some r.1.1) (some r.1.2) },
          token := server (some r.1.1) (some r.1.2),
          trace := [Event.tokenFileRead, Event.warningMismatch (some U)] ++ r.2 ++
            [Event.serverLoginPassword (some r.1.1) (some r.1.2)] } := by
      unfold Authenticator.login
      simp [htok, hcred, huse, mismatch, hr]
    rw [loginEq]
    have hg := gup_trace_cases cfg env fs pr
    rw [← hr] at hg
    rcases hg with hg | hg | hg <;> rw [hg] <;>
      exact ⟨by simp, by intro tk; simp⟩

def cfgC5 : Config :=
  { api := { auth_token := none, username := "alice", password := none },
    app := { use_auth_token_file := true, allow_insecure_authfile := false,
             auth_file := AUTH_FILE, auth_token_file := AUTH_TOKEN_FILE } }

/-- A secure auth token file whose single line is `alice::` — it parses to
username `alice` and the empty token. -/
def fsC5 : FS := fun p =>
  if p = AUTH_TOKEN_FILE then some { mode := 0o600, contents := "alice::" } else none

/-- C5 counterexample: the token file's first line parses as username
`"alice"` and token `""`, and `"alice"` *equals* the configured username, yet
`login_with_auth_token_file` does not log in with the token (no login event,
client unchanged) — contradicting "uses token T to log in exactly when U
equals the configured username". -/
theorem c5_empty_token_counterexample :
    _parse_auth_file_contents (Authenticator._load_auth_token_file cfgC5 fsC5) =
      (some "alice", some "") ∧
    cfgC5.api.username = "alice" ∧
    Authenticator.login_with_auth_token_file cfgC5 fsC5 { auth := "" } =
      ({ auth := "" }, [Event.tokenFileRead]) := by
  decide

/-- A secure auth token file recorded for `bob`, read with `alice`
configured. -/
def fsC5w : FS := fun p =>
  if p = AUTH_TOKEN_FILE then some { mode := 0o600, contents := "bob::tok123" } else none

theorem c5_witness :
    (_parse_auth_file_contents (Authenticator._load_auth_token_file cfgC5 fsC5w) =
        (some "bob", some "tok123") ∧ "tok123" ≠ "" ∧
      ¬("bob" ≠ "" ∧ "bob" = cfgC5.api.username)) ∧
    Authenticator.login_with_auth_token_file cfgC5 fsC5w { auth := "" } =
      ({ auth := "" }, [Event.tokenFileRead, Event.warningMismatch (some "bob")]) :=
  ⟨⟨by decide, by decide, by decide⟩,
    (c5_token_username_binding cfgC5 fsC5w { auth := "" } "bob" "tok123"
        (by decide) (by decide)).2.1 (by decide)⟩

-- § C1

/-- `write_auth_token_file` writes `username::token` at its target path:
fresh files get secure permissions, insecurely-permissioned existing files are
tightened, securely-permissioned ones keep their mode. -/
theorem write_auth_token_file_at (fs : FS) (u t : String) (file : FPath) :
    write_auth_token_file fs u t file file =
      some { mode := match fs file with
                     | none => SECURE_PERMISSIONS
                     | some fi => if file_has_secure_permissions fi then fi.mode
                                  else SECURE_PERMISSIONS,
             contents := u ++ "::" ++ t } := by
  unfold write_auth_token_file
  simp

/-- C1 (corrected, amended): on every successful `login()` with token-file
persistence enabled, the token is written to the configured auth-token file
path (the canonical write target; legacy paths are never written), keyed to
the *configured* username `config.api.username` — which, as the
counterexample shows, can differ from the username that was actually used to
obtain the session when that username was resolved from the environment, the
auth file, or prompting. -/
theorem c1_token_file_keyed_to_configured_username (cfg : Config) (env : Env)
    (fs : FS) (pr : Prompter) (server : Server)
    (h : cfg.app.use_auth_token_file = true) :
    (login cfg env fs pr server).fs =
      write_auth_token_file fs cfg.api.username
        (Authenticator.login cfg env fs pr server).token cfg.app.auth_token_file ∧
    (login cfg env fs pr server).token =
      (Authenticator.login cfg env fs pr server).token ∧
    (login cfg env fs pr server).fs cfg.app.auth_token_file =
      some { mode := match fs cfg.app.auth_token_file with
                     | none => SECURE_PERMISSIONS
                     | some fi => if file_has_secure_permissions fi then fi.mode
                                  else SECURE_PERMISSIONS,
             contents := cfg.api.username ++ "::" ++
               (Authenticator.login cfg env fs pr server).token } := by
  have hfs : (login cfg env fs pr server).fs =
      write_auth_token_file fs cfg.api.username
        (Authenticator.login cfg env fs pr server).token cfg.app.auth_token_file := by
    unfold login
    simp [h]
  have htk : (login cfg env fs pr server).token =
      (Authenticator.login cfg env fs pr server).token := by
    unfold login
    simp [h]
  refine ⟨hfs, htk, ?_⟩
  rw [hfs, write_auth_token_file_at]

def cfgC1 : Config :=
  { api := { auth_token := none, username := "alice", password := none },
    app := { use_auth_token_file := true, allow_insecure_authfile := false,
             auth_file := AUTH_FILE, auth_token_file := AUTH_TOKEN_FILE } }

def envC1 : Env := { username := some "eve", password := some "pw" }

def fsC1 : FS := fun _ => none

def prompterC1 : Prompter := fun d => (d, "prompted")

/-- A server oracle that shows which username the session was obtained
with. -/
def serverC1 : Server := fun u _ =>
  match u with
  | some "eve" => "tok-eve"
  | _ => "tok-other"

/-- C1 counterexample: with username `alice` configured but no config
password, the credentials actually used come from the environment
(`eve`/`pw`, visible both in the trace and in the granted token), yet the
auth-token file is written keyed to `alice` — not to the username that was
actually used to obtain the session. -/
theorem c1_counterexample :
    cfgC1.app.use_auth_token_file = true ∧
    (login cfgC1 envC1 fsC1 prompterC1 serverC1).trace =
      [Event.tokenFileRead, Event.envRead,
        Event.serverLoginPassword (some "eve") (some "pw")] ∧
    (login cfgC1 envC1 fsC1 prompterC1 serverC1).token = "tok-eve" ∧
    (login cfgC1 envC1 fsC1 prompterC1 serverC1).fs AUTH_TOKEN_FILE =
      some { mode := SECURE_PERMISSIONS, contents := "alice::tok-eve" } ∧
    ("alice::tok-eve" : String) ≠ "eve::tok-eve" := by
  decide

theorem c1_witness :
    cfgC1.app.use_auth_token_file = true ∧
    (login cfgC1 envC1 fsC1 prompterC1 serverC1).fs cfgC1.app.auth_token_file =
      some { mode := match fsC1 cfgC1.app.auth_token_file with
                     | none => SECURE_PERMISSIONS
                     | some fi => if file_has_secure_permissions fi then fi.mode
                                  else SECURE_PERMISSIONS,
             contents := cfgC1.api.username ++ "::" ++
               (Authenticator.login cfgC1 envC1 fsC1 prompterC1 serverC1).token } :=
  ⟨rfl,
    (c1_token_file_keyed_to_configured_username cfgC1 envC1 fsC1 prompterC1
        serverC1 rfl).2.2⟩
